import Mathlib

/-!
Shallow embedding of the quiz application's core: the evaluation client
(`services/geminiService.ts`, here the `GeminiService` namespace) and the
session state machine of the `App` component (`App.tsx` / `types.ts`, here
the `QuizApp` namespace).  Machine numbers are modelled as `ℚ`/`ℤ`
(JSON.parse only yields finite doubles, a subset of `ℚ`); fallible code
returns `Except`/`Option`.
-/

namespace QuizModel

/-- `Difficulty` enum from types.ts. -/
inductive Difficulty where
  | Basic
  | Medium
  | Difficult
deriving DecidableEq, Repr

/-- `Question` interface from types.ts (`maxMarks` is a positive integer per
the static question-bank data; we model it as `ℕ`). -/
structure Question where
  id : String
  prompt : String
  canonicalAnswer : String
  maxMarks : ℕ
deriving DecidableEq, Repr

/-- `EvaluationResult` interface from types.ts, as declared (scores from the
service are clamped integers, so `ℤ`). -/
structure EvaluationResult where
  score : ℤ
  feedback : String
  isCorrect : Bool
  missingConcepts : List String
  terminologyCorrections : List String
  modelAnswerImprovement : String
deriving DecidableEq, Repr

/-- The per-difficulty question lists of a `Chapter` (the object literal type
of `Chapter.questions` in types.ts). -/
structure ChapterQuestions where
  basic : List Question
  medium : List Question
  difficult : List Question
deriving DecidableEq, Repr

/-- Indexing `Chapter.questions[difficulty]`. -/
def ChapterQuestions.get (qs : ChapterQuestions) : Difficulty → List Question
  | Difficulty.Basic => qs.basic
  | Difficulty.Medium => qs.medium
  | Difficulty.Difficult => qs.difficult

/-- `Chapter` interface from types.ts. -/
structure Chapter where
  name : String
  questions : ChapterQuestions
deriving DecidableEq, Repr

/-- `Subject` interface from types.ts. -/
structure Subject where
  name : String
  chapters : List Chapter
deriving DecidableEq, Repr

/-- `SubjectsData` from types.ts: a string-keyed object of subjects, modelled
as an association list. -/
def SubjectsData := List (String × Subject)

namespace GeminiService

/-- Parsed JSON values, the possible results of `JSON.parse` on the service
response text.  JSON numbers are finite doubles, embedded in `ℚ`. -/
inductive Json where
  | null
  | bool (b : Bool)
  | num (x : ℚ)
  | str (s : String)
  | arr (elems : List Json)
  | obj (fields : List (String × Json))

/-- JavaScript property access `result.name`: a field of an object, and
`undefined` (here `none`) for a missing field or a non-object. -/
def getField : Json → String → Option Json
  | Json.obj fields, name => fields.lookup name
  | _, _ => none

/-- JS check `typeof v === "number"` on a possibly-undefined property. -/
def isNumberField : Option Json → Bool
  | some (Json.num _) => true
  | _ => false

/-- JS check `typeof v === "string"` on a possibly-undefined property. -/
def isStringField : Option Json → Bool
  | some (Json.str _) => true
  | _ => false

/-- JS check `typeof v === "boolean"` on a possibly-undefined property. -/
def isBooleanField : Option Json → Bool
  | some (Json.bool _) => true
  | _ => false

/-- JS check `Array.isArray(v)` on a possibly-undefined property.  Note it
looks only at the value being an array, not at its element types. -/
def isArrayField : Option Json → Bool
  | some (Json.arr _) => true
  | _ => false

/-- The `// Basic validation` conjunction of geminiService.ts line 91,
field by field in source order. -/
def validateResponse (result : Json) : Bool :=
  isNumberField (getField result "score") &&
  isStringField (getField result "feedback") &&
  isBooleanField (getField result "isCorrect") &&
  isArrayField (getField result "missingConcepts") &&
  isArrayField (getField result "terminologyCorrections") &&
  isStringField (getField result "modelAnswerImprovement")

/-- Numeric value of a validated `score` field (the `0` branch is unreachable
once `isNumberField` has succeeded). -/
def asNumber : Option Json → ℚ
  | some (Json.num x) => x
  | _ => 0

/-- String value of a validated string field. -/
def asString : Option Json → String
  | some (Json.str s) => s
  | _ => ""

/-- Boolean value of a validated boolean field. -/
def asBoolean : Option Json → Bool
  | some (Json.bool b) => b
  | _ => false

/-- Element list of a validated array field. -/
def asArray : Option Json → List Json
  | some (Json.arr l) => l
  | _ => []

/-- JavaScript `Math.round`: nearest integer, halves toward positive
infinity. -/
def jsRound (x : ℚ) : ℤ := ⌊x + 1 / 2⌋

/-- The object `evaluateAnswer` actually resolves with at runtime.  Its TS
annotation is `EvaluationResult`, but the validation only checks
`Array.isArray` on the two list fields, so at runtime they can carry
arbitrary JSON values; they are therefore `List Json` here. -/
structure GeminiEvaluation where
  score : ℤ
  feedback : String
  isCorrect : Bool
  missingConcepts : List Json
  terminologyCorrections : List Json
  modelAnswerImprovement : String

/-- `evaluateAnswer` from geminiService.ts, applied to the parsed JSON of the
service response (transport and JSON.parse failures happen before this point
and also surface as the generic error).  A validation failure is thrown,
caught by the surrounding catch and re-thrown as the generic service error,
so the observable outcome is `Except.error` with that message. -/
def evaluateAnswer (question : Question) (parsed : Json) :
    Except String GeminiEvaluation :=
  if validateResponse parsed then
    Except.ok
      { score := max 0 (min (question.maxMarks : ℤ)
          (jsRound (asNumber (getField parsed "score")))),
        feedback := asString (getField parsed "feedback"),
        isCorrect := asBoolean (getField parsed "isCorrect"),
        missingConcepts := asArray (getField parsed "missingConcepts"),
        terminologyCorrections := asArray (getField parsed "terminologyCorrections"),
        modelAnswerImprovement := asString (getField parsed "modelAnswerImprovement") }
  else
    Except.error "Failed to get evaluation from AI service."

end GeminiService

namespace QuizApp

/-- The `AppState` union type of App.tsx. -/
inductive AppState where
  | setup
  | quiz
  | summary
deriving DecidableEq, Repr

/-- A history entry of the `sessionAnswers` state array: `{ question,
studentAnswer, result }`, with `result` nullable as in its TS type. -/
structure SessionAnswer where
  question : Question
  studentAnswer : String
  result : Option EvaluationResult
deriving DecidableEq, Repr

/-- The `useState` fields of the `App` component that the session state
machine reads and writes (`isLoading` only gates the UI while one evaluation
is outstanding and is omitted). -/
structure AppSt where
  appState : AppState
  selectedSubject : String
  selectedChapter : String
  selectedDifficulty : Option Difficulty
  questions : List Question
  currentQuestionIndex : ℕ
  totalScore : ℤ
  sessionAnswers : List SessionAnswer
  error : Option String
  streak : ℕ
deriving DecidableEq, Repr

/-- The initial component state: `appState = setup`, empty selections and
session fields (`streak` restored from storage, here any value). -/
def initialState (streak : ℕ) : AppSt :=
  { appState := AppState.setup,
    selectedSubject := "",
    selectedChapter := "",
    selectedDifficulty := none,
    questions := [],
    currentQuestionIndex := 0,
    totalScore := 0,
    sessionAnswers := [],
    error := none,
    streak := streak }

/-- The lookup `SUBJECTS[subject]?.chapters.find(c => c.name === chapter)`
of handleStartQuiz. -/
def findChapter (subjects : SubjectsData) (subject chapter : String) :
    Option Chapter :=
  match List.lookup subject subjects with
  | none => none
  | some subj => subj.chapters.find? (fun c => c.name == chapter)

/-- `handleStartQuiz` from App.tsx.  `shuffle` stands for `shuffleArray`,
whose only guarantee is that `[...array].sort(cmp)` is some permutation of
the input (the comparator is random and inconsistent, so nothing more can be
said); `QUESTIONS_PER_SESSION` is the session-size constant imported from
constants.ts.  On a thrown selection error the catch clause only sets the
error message, so every other field is left unchanged. -/
def handleStartQuiz (QUESTIONS_PER_SESSION : ℕ)
    (shuffle : List Question → List Question) (subjects : SubjectsData)
    (subject chapter : String) (difficulty : Difficulty) (s : AppSt) : AppSt :=
  match findChapter subjects subject chapter with
  | none => { s with error := some "Chapter not found" }
  | some chapterData =>
    let questionPool := chapterData.questions.get difficulty
    if questionPool.isEmpty then
      { s with error := some "No questions available for this selection." }
    else
      { s with
        questions := (shuffle questionPool).take QUESTIONS_PER_SESSION,
        selectedSubject := subject,
        selectedChapter := chapter,
        selectedDifficulty := some difficulty,
        currentQuestionIndex := 0,
        totalScore := 0,
        sessionAnswers := [],
        error := none,
        appState := AppState.quiz }

/-- `questions[currentQuestionIndex]`.  JavaScript yields `undefined` out of
range; a default question models that, and reachable quiz states never read
out of range. -/
def currentQuestion (s : AppSt) : Question :=
  s.questions.getD s.currentQuestionIndex ⟨"", "", "", 0⟩

/-- The synthetic `errorResult` built in the catch clause of
`handleAnswerSubmit`. -/
def errorResult : EvaluationResult :=
  { score := 0,
    feedback := "Error during evaluation.",
    isCorrect := false,
    missingConcepts := [],
    terminologyCorrections := [],
    modelAnswerImprovement := "" }

/-- `handleAnswerSubmit` from App.tsx.  `outcome` is what
`await evaluateAnswer(currentQuestion, studentAnswer)` did: resolve with a
result or throw.  Returns the updated state and the result handed back to
the caller (the question screen). -/
def handleAnswerSubmit (studentAnswer : String)
    (outcome : Except String EvaluationResult) (s : AppSt) :
    AppSt × EvaluationResult :=
  let q := currentQuestion s
  match outcome with
  | Except.ok result =>
    ({ s with
        error := none,
        totalScore := s.totalScore + result.score,
        streak := if result.isCorrect then s.streak + 1 else 0,
        sessionAnswers := s.sessionAnswers ++
          [{ question := q, studentAnswer := studentAnswer, result := some result }] },
     result)
  | Except.error _ =>
    ({ s with
        error := some "Sorry, there was an error evaluating your answer. Please try again.",
        streak := 0,
        sessionAnswers := s.sessionAnswers ++
          [{ question := q, studentAnswer := studentAnswer, result := some errorResult }] },
     errorResult)

/-- The synthetic result recorded for a skipped question in
`handleNextQuestion`. -/
def skippedResult : EvaluationResult :=
  { score := 0,
    feedback := "You skipped this question.",
    isCorrect := false,
    missingConcepts := [],
    terminologyCorrections := [],
    modelAnswerImprovement := "" }

/-- `handleNextQuestion` from App.tsx.  The guard
`currentQuestionIndex < questions.length - 1` is JS number arithmetic, so it
is `index + 1 < length` over integers. -/
def handleNextQuestion (wasAnswered : Bool) (s : AppSt) : AppSt :=
  let s1 :=
    if wasAnswered then s
    else
      { s with
          streak := 0,
          sessionAnswers := s.sessionAnswers ++
            [{ question := currentQuestion s, studentAnswer := "",
               result := some skippedResult }] }
  if s1.currentQuestionIndex + 1 < s1.questions.length then
    { s1 with currentQuestionIndex := s1.currentQuestionIndex + 1 }
  else
    { s1 with appState := AppState.summary }

/-- Sum of the recorded result scores over a history, a null result counting
as 0 (no recorded entry is ever null, see the invariant). -/
def sumScores (l : List SessionAnswer) : ℤ :=
  (l.map (fun a =>
    match a.result with
    | some r => r.score
    | none => 0)).sum

/-- States reachable by the event protocol the application actually runs:

* `start`: a successful `handleStartQuiz` from any prior state.  `hperm` is
  the JS guarantee that `shuffleArray` permutes its input; `hqps` holds of
  the session-size constant (the app never starts a session with zero
  questions).
* `submit`: `SubmitAnswer` on the current question.  The question screen
  disables the submit button once `evaluationResult` is set, so at most one
  submission happens per question: in state terms, the history has no entry
  for the current question yet (`hfresh`).
* `advance`: `Advance`, i.e. the Next/Finish button.  The screen passes
  `wasAnswered = !!evaluationResult`, which is true exactly when the current
  question already has its history entry.

Both quiz events are only deliverable while the question screen is rendered,
i.e. in the `quiz` state. -/
inductive Reachable : AppSt → Prop where
  | start (QUESTIONS_PER_SESSION : ℕ) (shuffle : List Question → List Question)
      (subjects : SubjectsData) (subject chapter : String)
      (difficulty : Difficulty) (s₀ : AppSt) (chapterData : Chapter)
      (hch : findChapter subjects subject chapter = some chapterData)
      (hpool : chapterData.questions.get difficulty ≠ [])
      (hperm : (shuffle (chapterData.questions.get difficulty)).Perm
        (chapterData.questions.get difficulty))
      (hqps : 0 < QUESTIONS_PER_SESSION) :
      Reachable (handleStartQuiz QUESTIONS_PER_SESSION shuffle subjects
        subject chapter difficulty s₀)
  | submit (s : AppSt) (studentAnswer : String)
      (outcome : Except String EvaluationResult)
      (hr : Reachable s) (hstate : s.appState = AppState.quiz)
      (hfresh : s.sessionAnswers.length = s.currentQuestionIndex) :
      Reachable (handleAnswerSubmit studentAnswer outcome s).1
  | advance (s : AppSt) (hr : Reachable s)
      (hstate : s.appState = AppState.quiz) :
      Reachable (handleNextQuestion
        (s.sessionAnswers.length == s.currentQuestionIndex + 1) s)

/-- The session invariant maintained by every reachable state. -/
def Inv (s : AppSt) : Prop :=
  (s.appState = AppState.quiz ∨ s.appState = AppState.summary) ∧
  s.questions ≠ [] ∧
  (s.appState = AppState.quiz →
    s.currentQuestionIndex < s.questions.length ∧
    (s.sessionAnswers.length = s.currentQuestionIndex ∨
     s.sessionAnswers.length = s.currentQuestionIndex + 1)) ∧
  (s.appState = AppState.summary →
    s.sessionAnswers.length = s.questions.length) ∧
  s.totalScore = sumScores s.sessionAnswers ∧
  (∀ a ∈ s.sessionAnswers, a.result ≠ none)

/-- A small concrete question, for evaluating the model on concrete runs. -/
def qA : Question :=
  { id := "q1", prompt := "P1", canonicalAnswer := "A1", maxMarks := 5 }

/-- A second concrete question. -/
def qB : Question :=
  { id := "q2", prompt := "P2", canonicalAnswer := "A2", maxMarks := 3 }

/-- A concrete chapter whose Basic pool holds two questions and whose other
pools are empty. -/
def demoChapter : Chapter :=
  { name := "Ch",
    questions := { basic := [qA, qB], medium := [], difficult := [] } }

/-- A concrete subjects table with one subject and one chapter. -/
def demoSubjects : SubjectsData :=
  [("Bio", { name := "Bio", chapters := [demoChapter] })]

/-- A concrete successful quiz start (session size 2, identity shuffle). -/
def demoStart : AppSt :=
  handleStartQuiz 2 id demoSubjects "Bio" "Ch" Difficulty.Basic (initialState 0)

/-- The state after skipping the first question of `demoStart` (the screen
passes `wasAnswered = false` since no result was recorded). -/
def demoMid : AppSt :=
  handleNextQuestion
    (demoStart.sessionAnswers.length == demoStart.currentQuestionIndex + 1)
    demoStart

/-- The state after also skipping the second (final) question of `demoMid`:
the session reaches the summary state. -/
def demoEnd : AppSt :=
  handleNextQuestion
    (demoMid.sessionAnswers.length == demoMid.currentQuestionIndex + 1)
    demoMid

end QuizApp

namespace GeminiService

/-- JS check `typeof v === "string"` on a single JSON value. -/
def isStringValue : Json → Bool
  | Json.str _ => true
  | _ => false

/-- A concrete question for exercising the evaluation client
(`maxMarks = 5`). -/
def wQuestion : Question :=
  { id := "w1", prompt := "WP", canonicalAnswer := "WA", maxMarks := 5 }

/-- A structurally valid service response whose raw score 7 exceeds
`maxMarks = 5`. -/
def wResponse : Json :=
  Json.obj
    [("score", Json.num 7),
     ("feedback", Json.str "good"),
     ("isCorrect", Json.bool true),
     ("missingConcepts", Json.arr []),
     ("terminologyCorrections", Json.arr []),
     ("modelAnswerImprovement", Json.str "ok")]

/-- The result the client produces for `wResponse`: score clamped to 5. -/
def wResult : GeminiEvaluation :=
  { score := 5, feedback := "good", isCorrect := true, missingConcepts := [],
    terminologyCorrections := [], modelAnswerImprovement := "ok" }

/-- A structurally valid response reporting `isCorrect = true` although its
score 1 is far below 75 percent of `maxMarks = 5`. -/
def w8Response : Json :=
  Json.obj
    [("score", Json.num 1),
     ("feedback", Json.str "f"),
     ("isCorrect", Json.bool true),
     ("missingConcepts", Json.arr []),
     ("terminologyCorrections", Json.arr []),
     ("modelAnswerImprovement", Json.str "")]

/-- The result the client produces for `w8Response`. -/
def w8Result : GeminiEvaluation :=
  { score := 1, feedback := "f", isCorrect := true, missingConcepts := [],
    terminologyCorrections := [], modelAnswerImprovement := "" }

/-- A response whose `missingConcepts` is an array containing the number 7
rather than text; every other field is well typed. -/
def badListResponse : Json :=
  Json.obj
    [("score", Json.num 3),
     ("feedback", Json.str "fb"),
     ("isCorrect", Json.bool false),
     ("missingConcepts", Json.arr [Json.num 7]),
     ("terminologyCorrections", Json.arr []),
     ("modelAnswerImprovement", Json.str "")]

/-- The result the client produces for `badListResponse`: the non-string
array element passes validation and flows through. -/
def badListResult : GeminiEvaluation :=
  { score := 3, feedback := "fb", isCorrect := false,
    missingConcepts := [Json.num 7], terminologyCorrections := [],
    modelAnswerImprovement := "" }

end GeminiService

namespace QuizApp

theorem sumScores_append (l : List SessionAnswer) (a : SessionAnswer) :
    sumScores (l ++ [a]) =
      sumScores l +
        (match a.result with
         | some r => r.score
         | none => 0) := by
  simp [sumScores]

/-- Shape of a successful quiz start. -/
theorem handleStartQuiz_success (QUESTIONS_PER_SESSION : ℕ)
    (shuffle : List Question → List Question) (subjects : SubjectsData)
    (subject chapter : String) (difficulty : Difficulty) (s : AppSt)
    (chapterData : Chapter)
    (hch : findChapter subjects subject chapter = some chapterData)
    (hpool : chapterData.questions.get difficulty ≠ []) :
    handleStartQuiz QUESTIONS_PER_SESSION shuffle subjects subject chapter
        difficulty s =
      { s with
        questions := (shuffle (chapterData.questions.get difficulty)).take
          QUESTIONS_PER_SESSION,
        selectedSubject := subject,
        selectedChapter := chapter,
        selectedDifficulty := some difficulty,
        currentQuestionIndex := 0,
        totalScore := 0,
        sessionAnswers := [],
        error := none,
        appState := AppState.quiz } := by
  unfold handleStartQuiz
  rw [hch]
  exact if_neg (by simpa using hpool)

/-- Shape of a submission whose evaluation resolved. -/
theorem handleAnswerSubmit_ok (studentAnswer : String)
    (result : EvaluationResult) (s : AppSt) :
    handleAnswerSubmit studentAnswer (Except.ok result) s =
      ({ s with
          error := none,
          totalScore := s.totalScore + result.score,
          streak := if result.isCorrect then s.streak + 1 else 0,
          sessionAnswers := s.sessionAnswers ++
            [{ question := currentQuestion s, studentAnswer := studentAnswer,
               result := some result }] },
       result) := rfl

/-- Shape of a submission whose evaluation threw. -/
theorem handleAnswerSubmit_error (studentAnswer e : String) (s : AppSt) :
    handleAnswerSubmit studentAnswer (Except.error e) s =
      ({ s with
          error := some "Sorry, there was an error evaluating your answer. Please try again.",
          streak := 0,
          sessionAnswers := s.sessionAnswers ++
            [{ question := currentQuestion s, studentAnswer := studentAnswer,
               result := some errorResult }] },
       errorResult) := rfl

/-- Shape of an advance after the current question was answered. -/
theorem handleNextQuestion_true (s : AppSt) :
    handleNextQuestion true s =
      if s.currentQuestionIndex + 1 < s.questions.length then
        { s with currentQuestionIndex := s.currentQuestionIndex + 1 }
      else
        { s with appState := AppState.summary } := rfl

/-- Shape of an advance that skips the current question. -/
theorem handleNextQuestion_false (s : AppSt) :
    handleNextQuestion false s =
      if s.currentQuestionIndex + 1 < s.questions.length then
        { s with
            streak := 0,
            sessionAnswers := s.sessionAnswers ++
              [{ question := currentQuestion s, studentAnswer := "",
                 result := some skippedResult }],
            currentQuestionIndex := s.currentQuestionIndex + 1 }
      else
        { s with
            streak := 0,
            sessionAnswers := s.sessionAnswers ++
              [{ question := currentQuestion s, studentAnswer := "",
                 result := some skippedResult }],
            appState := AppState.summary } := rfl

theorem reachable_inv (s : AppSt) (h : Reachable s) : Inv s := by
  induction h with
  | start QUESTIONS_PER_SESSION shuffle subjects subject chapter difficulty
      s₀ chapterData hch hpool hperm hqps =>
    have hsne : shuffle (chapterData.questions.get difficulty) ≠ [] := by
      intro hnil
      rw [hnil] at hperm
      exact hpool hperm.symm.eq_nil
    rw [handleStartQuiz_success QUESTIONS_PER_SESSION shuffle subjects subject
      chapter difficulty s₀ chapterData hch hpool]
    refine ⟨Or.inl rfl, ?_, ?_, ?_, ?_, ?_⟩
    · show (shuffle (chapterData.questions.get difficulty)).take
        QUESTIONS_PER_SESSION ≠ []
      simp only [ne_eq, List.take_eq_nil_iff]
      push_neg
      exact ⟨by omega, hsne⟩
    · intro _
      refine ⟨?_, Or.inl rfl⟩
      show 0 < ((shuffle (chapterData.questions.get difficulty)).take
        QUESTIONS_PER_SESSION).length
      simp only [List.length_take, lt_min_iff]
      exact ⟨hqps, List.length_pos.mpr hsne⟩
    · intro hcontra
      exact absurd hcontra (by simp)
    · simp [sumScores]
    · simp
  | submit s studentAnswer outcome hr hstate hfresh ih =>
    obtain ⟨_, hqne, hquiz, _, hscore, hres⟩ := ih
    obtain ⟨hidx, _⟩ := hquiz hstate
    cases outcome with
    | ok result =>
      rw [handleAnswerSubmit_ok]
      refine ⟨Or.inl hstate, hqne, ?_, ?_, ?_, ?_⟩
      · intro _
        exact ⟨hidx, Or.inr (by simp [hfresh])⟩
      · intro hcontra
        rw [show ({ s with
            error := none,
            totalScore := s.totalScore + result.score,
            streak := if result.isCorrect then s.streak + 1 else 0,
            sessionAnswers := s.sessionAnswers ++
              [{ question := currentQuestion s, studentAnswer := studentAnswer,
                 result := some result }] } : AppSt).appState = s.appState
          from rfl, hstate] at hcontra
        exact absurd hcontra (by simp)
      · show s.totalScore + result.score = sumScores (s.sessionAnswers ++ _)
        rw [sumScores_append, hscore]
      · intro a ha
        rcases List.mem_append.mp ha with ha | ha
        · exact hres a ha
        · rw [List.mem_singleton.mp ha]
          simp
    | error e =>
      rw [handleAnswerSubmit_error]
      refine ⟨Or.inl hstate, hqne, ?_, ?_, ?_, ?_⟩
      · intro _
        exact ⟨hidx, Or.inr (by simp [hfresh])⟩
      · intro hcontra
        rw [show ({ s with
            error := some "Sorry, there was an error evaluating your answer. Please try again.",
            streak := 0,
            sessionAnswers := s.sessionAnswers ++
              [{ question := currentQuestion s, studentAnswer := studentAnswer,
                 result := some errorResult }] } : AppSt).appState = s.appState
          from rfl, hstate] at hcontra
        exact absurd hcontra (by simp)
      · show s.totalScore = sumScores (s.sessionAnswers ++ _)
        rw [sumScores_append, hscore]
        simp [errorResult]
      · intro a ha
        rcases List.mem_append.mp ha with ha | ha
        · exact hres a ha
        · rw [List.mem_singleton.mp ha]
          simp
  | advance s hr hstate ih =>
    obtain ⟨_, hqne, hquiz, _, hscore, hres⟩ := ih
    obtain ⟨hidx, hlen⟩ := hquiz hstate
    rcases hlen with hlen | hlen
    · -- current question unanswered: the screen passes wasAnswered = false
      have hb : (s.sessionAnswers.length == s.currentQuestionIndex + 1) = false := by
        simp [hlen]
      rw [hb, handleNextQuestion_false]
      by_cases hlt : s.currentQuestionIndex + 1 < s.questions.length
      · rw [if_pos hlt]
        refine ⟨Or.inl hstate, hqne, ?_, ?_, ?_, ?_⟩
        · intro _
          exact ⟨hlt, Or.inl (by simp [hlen])⟩
        · intro hcontra
          rw [show ({ s with
              streak := 0,
              sessionAnswers := s.sessionAnswers ++
                [{ question := currentQuestion s, studentAnswer := "",
                   result := some skippedResult }],
              currentQuestionIndex := s.currentQuestionIndex + 1 } : AppSt).appState
              = s.appState from rfl, hstate] at hcontra
          exact absurd hcontra (by simp)
        · show s.totalScore = sumScores (s.sessionAnswers ++ _)
          rw [sumScores_append, hscore]
          simp [skippedResult]
        · intro a ha
          rcases List.mem_append.mp ha with ha | ha
          · exact hres a ha
          · rw [List.mem_singleton.mp ha]
            simp
      · rw [if_neg hlt]
        refine ⟨Or.inr rfl, hqne, ?_, ?_, ?_, ?_⟩
        · intro hcontra
          exact absurd hcontra (by simp)
        · intro _
          show (s.sessionAnswers ++
            [({ question := currentQuestion s, studentAnswer := "",
                result := some skippedResult } : SessionAnswer)]).length =
            s.questions.length
          rw [List.length_append, List.length_singleton]
          omega
        · show s.totalScore = sumScores (s.sessionAnswers ++ _)
          rw [sumScores_append, hscore]
          simp [skippedResult]
        · intro a ha
          rcases List.mem_append.mp ha with ha | ha
          · exact hres a ha
          · rw [List.mem_singleton.mp ha]
            simp
    · -- current question answered: wasAnswered = true, nothing appended
      have hb : (s.sessionAnswers.length == s.currentQuestionIndex + 1) = true := by
        simp [hlen]
      rw [hb, handleNextQuestion_true]
      by_cases hlt : s.currentQuestionIndex + 1 < s.questions.length
      · rw [if_pos hlt]
        refine ⟨Or.inl hstate, hqne, ?_, ?_, hscore, hres⟩
        · intro _
          exact ⟨hlt, Or.inl hlen⟩
        · intro hcontra
          rw [show ({ s with currentQuestionIndex := s.currentQuestionIndex + 1 }
              : AppSt).appState = s.appState from rfl, hstate] at hcontra
          exact absurd hcontra (by simp)
      · rw [if_neg hlt]
        refine ⟨Or.inr rfl, hqne, ?_, ?_, hscore, hres⟩
        · intro hcontra
          exact absurd hcontra (by simp)
        · intro _
          show s.sessionAnswers.length = s.questions.length
          omega

theorem demoStart_reachable : Reachable demoStart :=
  Reachable.start 2 id demoSubjects "Bio" "Ch" Difficulty.Basic
    (initialState 0) demoChapter (by decide) (by decide) (List.Perm.refl _)
    (by decide)

theorem demoMid_reachable : Reachable demoMid :=
  Reachable.advance demoStart demoStart_reachable (by decide)

theorem demoEnd_reachable : Reachable demoEnd :=
  Reachable.advance demoMid demoMid_reachable (by decide)

/-- C2: for every non-empty question pool (with distinct identifiers) found
by the selection lookup, a successful StartQuiz yields a question list of
length `min (pool size) QUESTIONS_PER_SESSION` whose identifiers are
pairwise distinct and whose elements all come from the pool. -/
theorem startQuiz_sample_nodup_length (QUESTIONS_PER_SESSION : ℕ)
    (shuffle : List Question → List Question) (subjects : SubjectsData)
    (subject chapter : String) (difficulty : Difficulty) (s : AppSt)
    (chapterData : Chapter)
    (hch : findChapter subjects subject chapter = some chapterData)
    (hpool : chapterData.questions.get difficulty ≠ [])
    (hperm : (shuffle (chapterData.questions.get difficulty)).Perm
      (chapterData.questions.get difficulty))
    (hnodup : ((chapterData.questions.get difficulty).map Question.id).Nodup) :
    (handleStartQuiz QUESTIONS_PER_SESSION shuffle subjects subject chapter
        difficulty s).questions.length =
      min (chapterData.questions.get difficulty).length QUESTIONS_PER_SESSION ∧
    ((handleStartQuiz QUESTIONS_PER_SESSION shuffle subjects subject chapter
        difficulty s).questions.map Question.id).Nodup ∧
    ∀ q ∈ (handleStartQuiz QUESTIONS_PER_SESSION shuffle subjects subject
        chapter difficulty s).questions,
      q ∈ chapterData.questions.get difficulty := by
  rw [handleStartQuiz_success QUESTIONS_PER_SESSION shuffle subjects subject
    chapter difficulty s chapterData hch hpool]
  refine ⟨?_, ?_, ?_⟩
  · show ((shuffle (chapterData.questions.get difficulty)).take
      QUESTIONS_PER_SESSION).length = _
    rw [List.length_take, hperm.length_eq, Nat.min_comm]
  · have hshuf : ((shuffle (chapterData.questions.get difficulty)).map
        Question.id).Nodup := ((hperm.map Question.id).nodup_iff).mpr hnodup
    exact List.Nodup.sublist
      ((List.take_sublist _ _).map Question.id) hshuf
  · intro q hq
    exact hperm.subset (List.take_subset _ _ hq)

/-- Witness for C2 at the concrete two-question pool: both questions are
kept, identifiers stay distinct, and the sampled element is from the pool. -/
theorem startQuiz_sample_nodup_length_witness :
    demoStart.questions.length =
      min (demoChapter.questions.get Difficulty.Basic).length 2 ∧
    (demoStart.questions.map Question.id).Nodup ∧
    qA ∈ demoChapter.questions.get Difficulty.Basic :=
  ⟨(startQuiz_sample_nodup_length 2 id demoSubjects "Bio" "Ch" Difficulty.Basic
      (initialState 0) demoChapter (by decide) (by decide) (List.Perm.refl _)
      (by decide)).1,
   (startQuiz_sample_nodup_length 2 id demoSubjects "Bio" "Ch" Difficulty.Basic
      (initialState 0) demoChapter (by decide) (by decide) (List.Perm.refl _)
      (by decide)).2.1,
   (startQuiz_sample_nodup_length 2 id demoSubjects "Bio" "Ch" Difficulty.Basic
      (initialState 0) demoChapter (by decide) (by decide) (List.Perm.refl _)
      (by decide)).2.2 qA (by decide)⟩

/-- C3: along every SubmitAnswer/Advance trace from a successful StartQuiz,
the answer-history length never exceeds the question-list length, equals it
exactly in the summary state, and an Advance on the final question moves the
state to summary. -/
theorem history_length_invariant (s : AppSt) (h : Reachable s) :
    s.sessionAnswers.length ≤ s.questions.length ∧
    (s.appState = AppState.summary →
      s.sessionAnswers.length = s.questions.length) ∧
    (s.appState = AppState.quiz →
      s.currentQuestionIndex + 1 = s.questions.length →
      (handleNextQuestion
        (s.sessionAnswers.length == s.currentQuestionIndex + 1) s).appState =
        AppState.summary) := by
  obtain ⟨hstates, hqne, hquiz, hsum, _, _⟩ := reachable_inv s h
  refine ⟨?_, hsum, ?_⟩
  · rcases hstates with hq | hs
    · obtain ⟨hidx, hlen⟩ := hquiz hq
      omega
    · rw [hsum hs]
  · intro hq hfin
    obtain ⟨hidx, hlen⟩ := hquiz hq
    cases hbv : (s.sessionAnswers.length == s.currentQuestionIndex + 1) with
    | false => rw [handleNextQuestion_false, if_neg (by omega)]
    | true => rw [handleNextQuestion_true, if_neg (by omega)]

/-- Witness for C3: at the concrete state on its final question the bound
holds, the concrete summary state has full history, and advancing on the
final question lands in summary. -/
theorem history_length_invariant_witness :
    demoMid.sessionAnswers.length ≤ demoMid.questions.length ∧
    demoEnd.sessionAnswers.length = demoEnd.questions.length ∧
    (handleNextQuestion
      (demoMid.sessionAnswers.length == demoMid.currentQuestionIndex + 1)
      demoMid).appState = AppState.summary :=
  ⟨(history_length_invariant demoMid demoMid_reachable).1,
   (history_length_invariant demoEnd demoEnd_reachable).2.1 (by decide),
   (history_length_invariant demoMid demoMid_reachable).2.2 (by decide)
     (by decide)⟩

/-- C4: the streak increments by exactly 1 on an isCorrect submission result,
and resets to exactly 0 on a non-correct result, on an evaluation failure,
and on a skip (Advance with wasAnswered = false). -/
theorem streak_update_rules (s : AppSt) (studentAnswer : String)
    (result : EvaluationResult) (e : String) :
    ((handleAnswerSubmit studentAnswer (Except.ok result) s).1.streak =
      if result.isCorrect then s.streak + 1 else 0) ∧
    (handleAnswerSubmit studentAnswer (Except.error e) s).1.streak = 0 ∧
    (handleNextQuestion false s).streak = 0 := by
  refine ⟨rfl, rfl, ?_⟩
  rw [handleNextQuestion_false]
  by_cases hlt : s.currentQuestionIndex + 1 < s.questions.length
  · rw [if_pos hlt]
  · rw [if_neg hlt]

/-- C5: in every reachable state the cumulative total score equals the sum
of the recorded result scores over the session-answer history. -/
theorem totalScore_eq_sumScores (s : AppSt) (h : Reachable s) :
    s.totalScore = sumScores s.sessionAnswers :=
  (reachable_inv s h).2.2.2.2.1

/-- Witness for C5 at the concrete summary state with two recorded skips. -/
theorem totalScore_eq_sumScores_witness :
    demoEnd.totalScore = sumScores demoEnd.sessionAnswers :=
  totalScore_eq_sumScores demoEnd demoEnd_reachable

/-- C6: when the evaluation client throws, SubmitAnswer appends exactly one
history entry carrying the synthetic zero-score non-correct result with the
generic failure message, resets the streak, leaves the cumulative score and
the app state unchanged, and returns the synthetic result to the caller. -/
theorem submit_error_recovery (s : AppSt) (studentAnswer e : String) :
    (handleAnswerSubmit studentAnswer (Except.error e) s).1.sessionAnswers =
      s.sessionAnswers ++
        [{ question := currentQuestion s, studentAnswer := studentAnswer,
           result := some errorResult }] ∧
    (handleAnswerSubmit studentAnswer (Except.error e) s).2 = errorResult ∧
    errorResult.score = 0 ∧
    errorResult.isCorrect = false ∧
    errorResult.feedback = "Error during evaluation." ∧
    (handleAnswerSubmit studentAnswer (Except.error e) s).1.streak = 0 ∧
    (handleAnswerSubmit studentAnswer (Except.error e) s).1.totalScore =
      s.totalScore ∧
    (handleAnswerSubmit studentAnswer (Except.error e) s).1.appState =
      s.appState :=
  ⟨rfl, rfl, rfl, rfl, rfl, rfl, rfl, rfl⟩

/-- C9: a StartQuiz whose chapter lookup misses, or whose selected pool is
empty, only sets the corresponding selection error message: the whole state
is otherwise unchanged, so no session is created and setup persists. -/
theorem startQuiz_failure_no_session (QUESTIONS_PER_SESSION : ℕ)
    (shuffle : List Question → List Question) (subjects : SubjectsData)
    (subject chapter : String) (difficulty : Difficulty) (s : AppSt) :
    (findChapter subjects subject chapter = none →
      handleStartQuiz QUESTIONS_PER_SESSION shuffle subjects subject chapter
        difficulty s = { s with error := some "Chapter not found" }) ∧
    (∀ chapterData, findChapter subjects subject chapter = some chapterData →
      chapterData.questions.get difficulty = [] →
      handleStartQuiz QUESTIONS_PER_SESSION shuffle subjects subject chapter
        difficulty s =
        { s with
            error := some "No questions available for this selection." }) := by
  constructor
  · intro h
    unfold handleStartQuiz
    rw [h]
  · intro chapterData h hempty
    unfold handleStartQuiz
    rw [h]
    show (if (chapterData.questions.get difficulty).isEmpty = true
      then _ else _) = _
    rw [if_pos (by simp [hempty])]

/-- Witness for C9: a concrete missing chapter and a concrete empty Medium
pool each fail with their selection error and leave the state unchanged. -/
theorem startQuiz_failure_no_session_witness :
    handleStartQuiz 2 id demoSubjects "Bio" "Nope" Difficulty.Basic
      (initialState 0) =
      { (initialState 0) with error := some "Chapter not found" } ∧
    handleStartQuiz 2 id demoSubjects "Bio" "Ch" Difficulty.Medium
      (initialState 0) =
      { (initialState 0) with
          error := some "No questions available for this selection." } :=
  ⟨(startQuiz_failure_no_session 2 id demoSubjects "Bio" "Nope"
      Difficulty.Basic (initialState 0)).1 (by decide),
   (startQuiz_failure_no_session 2 id demoSubjects "Bio" "Ch"
      Difficulty.Medium (initialState 0)).2 demoChapter (by decide)
      (by decide)⟩

/-- C10: every history entry recorded on a reachable trace carries a
non-null result, although the SessionAnswer type declares it nullable. -/
theorem recorded_results_nonnull (s : AppSt) (h : Reachable s) :
    ∀ a ∈ s.sessionAnswers, a.result ≠ none :=
  (reachable_inv s h).2.2.2.2.2

/-- Witness for C10 at the concrete skip entry recorded in `demoMid`. -/
theorem recorded_results_nonnull_witness :
    ({ question := qA, studentAnswer := "", result := some skippedResult } :
      SessionAnswer).result ≠ none :=
  recorded_results_nonnull demoMid demoMid_reachable _ (by decide)

end QuizApp

namespace GeminiService

/-- C1: whatever numeric score a structurally valid response reports, the
returned score is that value rounded to the nearest integer and clamped into
the integer range 0 to maxMarks. -/
theorem evaluateAnswer_score_in_range (question : Question) (parsed : Json)
    (r : GeminiEvaluation) (x : ℚ)
    (hok : evaluateAnswer question parsed = Except.ok r)
    (hx : getField parsed "score" = some (Json.num x)) :
    r.score = max 0 (min (question.maxMarks : ℤ) (jsRound x)) ∧
    0 ≤ r.score ∧ r.score ≤ (question.maxMarks : ℤ) := by
  unfold evaluateAnswer at hok
  by_cases hv : validateResponse parsed = true
  · rw [if_pos hv] at hok
    have hr := Except.ok.inj hok
    subst hr
    refine ⟨?_, le_max_left _ _,
      max_le (Int.natCast_nonneg _) (min_le_left _ _)⟩
    show max 0 (min (question.maxMarks : ℤ)
      (jsRound (asNumber (getField parsed "score")))) = _
    rw [hx]
    rfl
  · rw [if_neg hv] at hok
    exact absurd hok (by simp)

/-- Witness for C1: the service reports 7 with maxMarks 5 and the client
clamps the returned score to 5. -/
theorem evaluateAnswer_score_in_range_witness :
    wResult.score = max 0 (min (wQuestion.maxMarks : ℤ) (jsRound 7)) ∧
    0 ≤ wResult.score ∧ wResult.score ≤ (wQuestion.maxMarks : ℤ) :=
  evaluateAnswer_score_in_range wQuestion wResponse wResult 7
    (by
      have hv : validateResponse wResponse = true := rfl
      have hs : jsRound (asNumber (getField wResponse "score")) = 7 := by
        show jsRound 7 = 7
        norm_num [jsRound]
      unfold evaluateAnswer
      rw [if_pos hv, hs]
      rfl)
    rfl

/-- C7 (amended): evaluateAnswer succeeds exactly when score is numeric,
feedback is text, isCorrect is boolean, the two list fields are arrays
(their element types are not checked), and modelAnswerImprovement is text;
otherwise it raises the evaluation error, never a partial result. -/
theorem evaluateAnswer_shape_validation (question : Question) (parsed : Json) :
    ((∃ r, evaluateAnswer question parsed = Except.ok r) ↔
      (isNumberField (getField parsed "score") = true ∧
       isStringField (getField parsed "feedback") = true ∧
       isBooleanField (getField parsed "isCorrect") = true ∧
       isArrayField (getField parsed "missingConcepts") = true ∧
       isArrayField (getField parsed "terminologyCorrections") = true ∧
       isStringField (getField parsed "modelAnswerImprovement") = true)) ∧
    ((∃ r, evaluateAnswer question parsed = Except.ok r) ∨
      evaluateAnswer question parsed =
        Except.error "Failed to get evaluation from AI service.") := by
  by_cases hv : validateResponse parsed = true
  · have hok : ∃ r, evaluateAnswer question parsed = Except.ok r := by
      unfold evaluateAnswer
      rw [if_pos hv]
      exact ⟨_, rfl⟩
    refine ⟨⟨fun _ => ?_, fun _ => hok⟩, Or.inl hok⟩
    simpa [validateResponse, Bool.and_eq_true, and_assoc] using hv
  · have herr : evaluateAnswer question parsed =
        Except.error "Failed to get evaluation from AI service." := by
      unfold evaluateAnswer
      rw [if_neg hv]
    refine ⟨⟨?_, ?_⟩, Or.inr herr⟩
    · rintro ⟨r, hr⟩
      rw [herr] at hr
      exact absurd hr (by simp)
    · intro hconds
      exact absurd (show validateResponse parsed = true by
        simpa [validateResponse, Bool.and_eq_true, and_assoc]
          using hconds) hv

/-- C7 counterexample: a response whose missingConcepts array holds the
number 7 instead of text passes validation, and the non-string element flows
into the returned result instead of causing a hard failure. -/
theorem validation_accepts_nonstring_elements :
    evaluateAnswer wQuestion badListResponse = Except.ok badListResult ∧
    Json.num 7 ∈ badListResult.missingConcepts ∧
    isStringValue (Json.num 7) = false := by
  refine ⟨?_, ?_, rfl⟩
  · have hv : validateResponse badListResponse = true := rfl
    have hs : jsRound (asNumber (getField badListResponse "score")) = 3 := by
      show jsRound 3 = 3
      norm_num [jsRound]
    unfold evaluateAnswer
    rw [if_pos hv, hs]
    rfl
  · show Json.num 7 ∈ [Json.num 7]
    exact List.mem_singleton.mpr rfl

/-- C8: the isCorrect flag of a validated result is exactly the boolean the
service reported; the client never recomputes it from the score. -/
theorem evaluateAnswer_isCorrect_passthrough (question : Question)
    (parsed : Json) (r : GeminiEvaluation) (b : Bool)
    (hok : evaluateAnswer question parsed = Except.ok r)
    (hb : getField parsed "isCorrect" = some (Json.bool b)) :
    r.isCorrect = b := by
  unfold evaluateAnswer at hok
  by_cases hv : validateResponse parsed = true
  · rw [if_pos hv] at hok
    have hr := Except.ok.inj hok
    subst hr
    show asBoolean (getField parsed "isCorrect") = b
    rw [hb]
    rfl
  · rw [if_neg hv] at hok
    exact absurd hok (by simp)

/-- Witness for C8: the service claims isCorrect although its score 1 is
below 75 percent of maxMarks 5, and the client passes the boolean through. -/
theorem evaluateAnswer_isCorrect_passthrough_witness :
    w8Result.isCorrect = true ∧
    w8Result.score = 1 ∧
    w8Result.score * 4 < (wQuestion.maxMarks : ℤ) * 3 :=
  ⟨evaluateAnswer_isCorrect_passthrough wQuestion w8Response w8Result true
      (by
        have hv : validateResponse w8Response = true := rfl
        have hs : jsRound (asNumber (getField w8Response "score")) = 1 := by
          show jsRound 1 = 1
          norm_num [jsRound]
        unfold evaluateAnswer
        rw [if_pos hv, hs]
        rfl)
      rfl,
   rfl, by decide⟩

end GeminiService

end QuizModel
